import Mathlib

/-!
Verification of the object foundation layer in src/src/core/base_object.py:
the attribute-bag BaseObject, its immutable variant ImmutableBaseObject, and
the TTL-cache manager BaseObjectManager.  Python dictionaries are embedded as
insertion-ordered association lists, Python exceptions as an explicit error
type, and log output as an explicit list of emitted messages.
-/

namespace BaseObjectRepo

/-- Python runtime values that flow through the object layer.  The
constructor vmethod models a bound built-in or class method retrieved by
attribute lookup (for example the items method of the internal dict). -/
inductive Value where
  | vnone
  | vint (n : Int)
  | vstr (s : String)
  | vlogger
  | vmethod (name : String)
deriving DecidableEq, Repr

/-- The Python exceptions raised by the embedded code.  keyNotFound is a
KeyError from indexing a dict; typeError arises from evaluating a membership
test against None; immutableViolation is the AttributeError raised explicitly
by ImmutableBaseObject with the message that the class is immutable;
attributeOnNone is the AttributeError raised when a method is invoked on a
value that does not provide it (for example None.error). -/
inductive PyError where
  | keyNotFound
  | typeError
  | immutableViolation
  | attributeOnNone
deriving DecidableEq, Repr

/-- The internal mapping self.__dict__ of an object: an insertion-ordered
association list from attribute names to values. -/
abbrev Dict := List (String × Value)

/-- Python dict assignment d[k] = v: overwrite in place when the key is
present (keeping its position), otherwise append at the end. -/
def dictSet : Dict → String → Value → Dict
  | [], k, v => [(k, v)]
  | (k0, v0) :: rest, k, v =>
      if k0 = k then (k, v) :: rest else (k0, v0) :: dictSet rest k v

/-- Python dict lookup d.get(k) returning an optional value. -/
def dictGet? : Dict → String → Option Value
  | [], _ => Option.none
  | (k0, v0) :: rest, k => if k0 = k then Option.some v0 else dictGet? rest k

/-- Python membership test k in d. -/
def dictContains (d : Dict) (k : String) : Bool :=
  (dictGet? d k).isSome

/-- Python deletion del d[k] of a present key: remove the entry. -/
def dictDelete : Dict → String → Dict
  | [], _ => []
  | (k0, v0) :: rest, k =>
      if k0 = k then rest else (k0, v0) :: dictDelete rest k

/-- Attribute names that the built-in dict object itself exposes: its
methods.  getattr(self.__dict__, name, default) returns the corresponding
bound method instead of the default when name is one of these.  Double
underscore attributes of dict are omitted; no claim mentions them. -/
def dictAttrNames : List String :=
  ["clear", "copy", "fromkeys", "get", "items", "keys", "pop",
   "popitem", "setdefault", "update", "values"]

/-- Methods defined on the BaseObject class, visible to attribute lookup on
an instance when the name is not in the instance dict.  Instance dict entries
shadow them (plain functions are non-data descriptors). -/
def baseObjectMethodNames : List String :=
  ["to_dict"]

/-- Python str() of a value, used by the f-string in BaseObject.__str__. -/
def pyStr : Value → String
  | .vnone => "None"
  | .vint n => toString n
  | .vstr s => s
  | .vlogger => "<Logger>"
  | .vmethod name => "<built-in method " ++ name ++ ">"

/-- BaseObject.__delattr__: del self.__dict__[name].  A present key is
removed; an absent key raises KeyError and the dict is untouched. -/
def delattrOp (d : Dict) (name : String) : Dict × Except PyError Unit :=
  if dictContains d name then (dictDelete d name, Except.ok ())
  else (d, Except.error PyError.keyNotFound)

/-- The body of BaseObject.__getattr__: getattr(self.__dict__, name,
default).  This is an attribute lookup on the dict object itself, so it
returns the bound dict method when name is an attribute of the dict type,
and only otherwise falls back to the default. -/
def getattrFallback (name : String) (default : Value) : Value :=
  if dictAttrNames.contains name then Value.vmethod name else default

/-- The full attribute read on a BaseObject: Python consults the instance
dict first, then class attributes (the methods of BaseObject), and only when
both miss calls __getattr__, whose body is getattrFallback. -/
def getAttr (d : Dict) (name : String) (default : Value) : Value :=
  match dictGet? d name with
  | Option.some v => v
  | Option.none =>
      if baseObjectMethodNames.contains name then Value.vmethod name
      else getattrFallback name default

/-- BaseObject.__getitem__: self.__dict__.get(name, default). -/
def getItem (d : Dict) (name : String) (default : Value) : Value :=
  match dictGet? d name with
  | Option.some v => v
  | Option.none => default

/-- BaseObject.__setattr__ and BaseObject.__setitem__ share one body:
self.__dict__[name] = value.  Always succeeds. -/
def setAttr (d : Dict) (name : String) (value : Value) : Dict :=
  dictSet d name value

/-- The condition of the comprehension in BaseObject.to_dict, evaluated per
entry: key not in exclude or [].  By Python precedence this parses as
(key not in exclude) or [], so when exclude is None the membership test
itself raises TypeError, and when the key is excluded the expression
evaluates to the falsy empty list. -/
def toDictCond (exclude : Option (List String)) (key : String) :
    Except PyError Bool :=
  match exclude with
  | Option.none => Except.error PyError.typeError
  | Option.some ex => Except.ok (!(ex.contains key))

/-- The dict comprehension of BaseObject.to_dict: entries are visited in
order and the first failing condition aborts the comprehension. -/
def toDictFilter (exclude : Option (List String)) : Dict → Except PyError Dict
  | [] => Except.ok []
  | (k, v) :: rest =>
      match toDictCond exclude k with
      | Except.error e => Except.error e
      | Except.ok keep =>
          match toDictFilter exclude rest with
          | Except.error e => Except.error e
          | Except.ok tail => Except.ok (if keep then (k, v) :: tail else tail)

/-- BaseObject.to_dict with its optional exclude parameter (default None). -/
def to_dict (d : Dict) (exclude : Option (List String)) : Except PyError Dict :=
  toDictFilter exclude d

/-- Semantics of Python str.join: the separator is placed between
consecutive elements, with no leading or trailing separator. -/
def strJoin (sep : String) : List String → String
  | [] => ""
  | [x] => x
  | x :: xs => x ++ sep ++ strJoin sep xs

/-- One rendered entry of BaseObject.__str__: the text key=value with the
value passed through str(). -/
def entryStr (kv : String × Value) : String :=
  kv.1 ++ "=" ++ pyStr kv.2

/-- BaseObject.__str__ (also __repr__): the f-string wrapping the joined
entries of the instance dict, in insertion order, between an opening angle
bracket plus class name plus open paren and a close paren plus closing
angle bracket. -/
def strOf (className : String) (d : Dict) : String :=
  "<" ++ className ++ "(" ++ strJoin ", " (d.map entryStr) ++ ")>"

/-- The state of a BaseObjectManager: the cache self._cache, the fixed
time limit self._time_limit, and the last-flush timestamp self._timestamp.
Timestamps and durations are whole seconds. -/
structure Manager where
  cache : Dict
  timeLimit : Int
  timestamp : Int
deriving DecidableEq, Repr

/-- BaseObjectManager._add_to_cache_: self._cache[key] = value, then an
info log naming the key. -/
def addToCache (m : Manager) (key : String) (value : Value) :
    Manager × List String :=
  ({ m with cache := dictSet m.cache key value },
   ["Added " ++ key ++ " to cache."])

/-- BaseObjectManager._check_time_limit_: the elapsed seconds since the
stored timestamp strictly exceed the time limit. -/
def checkTimeLimit (m : Manager) (now : Int) : Bool :=
  decide (m.timeLimit < now - m.timestamp)

/-- BaseObjectManager._flush_cache_: when forced, or when the time limit is
exceeded, replace the cache by the empty dict, set the timestamp to the
current time and log; otherwise do nothing and log nothing. -/
def flushCache (m : Manager) (force : Bool) (now : Int) :
    Manager × List String :=
  if force || checkTimeLimit m now then
    ({ m with cache := [], timestamp := now }, ["Flushed cache."])
  else (m, [])

/-- BaseObjectManager._get_from_cache_: return self._cache[key], raising
KeyError when the key is absent.  The method contains no logging call. -/
def getFromCache (m : Manager) (key : String) :
    Except PyError Value × List String :=
  (match dictGet? m.cache key with
   | Option.some v => Except.ok v
   | Option.none => Except.error PyError.keyNotFound,
   [])

/-- BaseObjectManager._is_in_cache_: the membership test key in
self._cache.  The method contains no logging call. -/
def isInCache (m : Manager) (key : String) : Bool × List String :=
  (dictContains m.cache key, [])

/-- BaseObjectManager._remove_from_cache_: del self._cache[key] (raising
KeyError on an absent key, before any logging), then an info log naming the
key. -/
def removeFromCache (m : Manager) (key : String) :
    Except PyError Manager × List String :=
  if dictContains m.cache key then
    (Except.ok { m with cache := dictDelete m.cache key },
     ["Removed " ++ key ++ " from cache."])
  else (Except.error PyError.keyNotFound, [])

/-- BaseObjectManager._update_in_cache_: self._cache[key] = value, then an
info log naming the key. -/
def updateInCache (m : Manager) (key : String) (value : Value) :
    Manager × List String :=
  ({ m with cache := dictSet m.cache key value },
   ["Updated " ++ key ++ " in cache."])

/-- Invocation of a logging method (error or warn) on whatever value the
expression self._logger produced.  On an actual Logger it emits the message;
on any other value (in particular the None produced by the __getattr__
fallback when no logger attribute was ever stored) the method lookup itself
raises AttributeError and nothing is emitted. -/
def loggerCall (v : Value) (msg : String) : List String × Except PyError Unit :=
  match v with
  | Value.vlogger => ([msg], Except.ok ())
  | _ => ([], Except.error PyError.attributeOnNone)

/-- The log message of the three mutation guards of ImmutableBaseObject
(all three use the same wording, with the class name interpolated). -/
def immutableMsg (name : String) : String :=
  "Cannot set attribute \x27" ++ name ++ "\x27 in ImmutableBaseObject."

/-- ImmutableBaseObject.__setattr__: look up self._logger through the
attribute protocol, call its error method with a message naming the
attribute, then raise AttributeError stating the class is immutable.  The
instance dict is returned unchanged in every case. -/
def immSetAttr (d : Dict) (name : String) (_value : Value) :
    Dict × List String × Except PyError Unit :=
  match loggerCall (getAttr d "_logger" Value.vnone) (immutableMsg name) with
  | (logs, Except.ok _) => (d, logs, Except.error PyError.immutableViolation)
  | (logs, Except.error e) => (d, logs, Except.error e)

/-- ImmutableBaseObject.__setitem__: identical body to __setattr__ (logs at
error severity, then raises). -/
def immSetItem (d : Dict) (name : String) (_value : Value) :
    Dict × List String × Except PyError Unit :=
  match loggerCall (getAttr d "_logger" Value.vnone) (immutableMsg name) with
  | (logs, Except.ok _) => (d, logs, Except.error PyError.immutableViolation)
  | (logs, Except.error e) => (d, logs, Except.error e)

/-- ImmutableBaseObject.__delattr__: same guard, logging at warn severity
with the same message, then raising AttributeError. -/
def immDelAttr (d : Dict) (name : String) :
    Dict × List String × Except PyError Unit :=
  match loggerCall (getAttr d "_logger" Value.vnone) (immutableMsg name) with
  | (logs, Except.ok _) => (d, logs, Except.error PyError.immutableViolation)
  | (logs, Except.error e) => (d, logs, Except.error e)

/-- Construction of an ImmutableBaseObject: ImmutableBaseObject.__init__
defers to BaseObject.__init__, whose first statement assigns the logger
obtained from Logger.get_logger to self._logger.  That assignment dispatches
to ImmutableBaseObject.__setattr__ on the still-empty instance dict.  The
result records the instance dict at the point construction stops, the log
messages emitted, and the outcome. -/
def immInit : Dict × List String × Except PyError Unit :=
  match immSetAttr [] "_logger" Value.vlogger with
  | (d, logs, Except.error e) => (d, logs, Except.error e)
  | (d, logs, Except.ok _) =>
      (d, logs ++ ["Initialized ImmutableBaseObject..."], Except.ok ())

/-- The rendering shape named by the amended rendering claim, written as one
recursion over the entries: each entry contributes key=value and consecutive
entries are separated by a comma and a space. -/
def renderedEntries : Dict → String
  | [] => ""
  | [kv] => entryStr kv
  | kv :: rest => entryStr kv ++ ", " ++ renderedEntries rest

/-- Setting a key and then reading that key through the dict yields exactly
the value just written, whether or not the key was present before. -/
theorem dictGet?_dictSet_self (d : Dict) (k : String) (v : Value) :
    dictGet? (dictSet d k v) k = Option.some v := by
  induction d with
  | nil => simp [dictSet, dictGet?]
  | cons kv rest ih =>
      rcases kv with ⟨k0, v0⟩
      by_cases hk : k0 = k
      · subst hk; simp [dictSet, dictGet?]
      · simp [dictSet, dictGet?, hk, ih]

/-- The join of the rendered entries agrees with the one-pass recursion of
renderedEntries. -/
theorem strJoin_map_entryStr (d : Dict) :
    strJoin ", " (d.map entryStr) = renderedEntries d := by
  induction d with
  | nil => rfl
  | cons kv rest ih =>
      cases rest with
      | nil => rfl
      | cons kv2 rest2 =>
          simp only [List.map, strJoin, renderedEntries] at ih ⊢
          rw [ih]

/-- C1: for every manager state, calling flush with force true, or with
force false when the elapsed time since the last flush strictly exceeds the
time limit, resets the cache to empty and sets the timestamp to the flush
time; calling flush with force false while the elapsed time is at most the
time limit leaves the manager (cache and timestamp) completely unchanged. -/
theorem C1_flush_cache_spec (m : Manager) (force : Bool) (now : Int) :
    ((force = true ∨ m.timeLimit < now - m.timestamp) →
      (flushCache m force now).1 =
        { m with cache := [], timestamp := now }) ∧
    ((force = false ∧ now - m.timestamp ≤ m.timeLimit) →
      (flushCache m force now).1 = m) := by
  constructor
  · rintro (rfl | h)
    · simp [flushCache]
    · simp [flushCache, checkTimeLimit, h]
  · rintro ⟨rfl, h⟩
    simp [flushCache, checkTimeLimit, not_lt.mpr h]

/-- Witness for C1 at a concrete manager: a non-forced flush 301 seconds
after the last flush (limit 300) resets the state, while a non-forced flush
at exactly 300 seconds leaves it unchanged. -/
theorem C1_flush_cache_spec_witness :
    (flushCache ⟨[("k", Value.vint 1)], 300, 0⟩ false 301).1 =
      ⟨[], 300, 301⟩ ∧
    (flushCache ⟨[("k", Value.vint 1)], 300, 0⟩ false 300).1 =
      ⟨[("k", Value.vint 1)], 300, 0⟩ :=
  ⟨(C1_flush_cache_spec ⟨[("k", Value.vint 1)], 300, 0⟩ false 301).1
      (Or.inr (by decide)),
   (C1_flush_cache_spec ⟨[("k", Value.vint 1)], 300, 0⟩ false 300).2
      ⟨rfl, by decide⟩⟩

/-- C2: to_dict evaluated on an object holding entries a = 1 and b = 2.
Excluding a keeps exactly b, and the empty exclusion keeps every entry
unchanged, but omitting the exclude argument (Python None) makes the
comprehension condition evaluate a membership test against None, raising
TypeError instead of returning the entries. -/
theorem C2_to_dict_exclude_bug :
    to_dict [("a", Value.vint 1), ("b", Value.vint 2)] (Option.some ["a"]) =
      Except.ok [("b", Value.vint 2)] ∧
    to_dict [("a", Value.vint 1), ("b", Value.vint 2)] (Option.some []) =
      Except.ok [("a", Value.vint 1), ("b", Value.vint 2)] ∧
    to_dict [("a", Value.vint 1), ("b", Value.vint 2)] Option.none =
      Except.error PyError.typeError :=
  ⟨rfl, rfl, rfl⟩

/-- C3: the attribute read evaluated at a failing input.  On an object where
the name items was never set (and likewise after setting and deleting it),
the getattr fallback of BaseObject.__getattr__ finds the items method of the
internal dict object and returns that bound method instead of the supplied
default None. -/
theorem C3_getattr_default_bug :
    getAttr [] "items" Value.vnone = Value.vmethod "items" ∧
    getAttr ((delattrOp (setAttr [] "items" (Value.vint 1)) "items").1)
        "items" Value.vnone = Value.vmethod "items" ∧
    Value.vmethod "items" ≠ Value.vnone :=
  ⟨rfl, rfl, by decide⟩

/-- C4: on an immutable object whose stored logger attribute is an actual
logger (as the base initializer would have stored), each of the three
mutation entry points leaves the instance dict unchanged, emits exactly the
guard log message, and fails with the immutability violation. -/
theorem C4_immutable_mutation_guards (d : Dict) (name : String) (v : Value)
    (h : dictGet? d "_logger" = Option.some Value.vlogger) :
    immSetAttr d name v =
      (d, [immutableMsg name], Except.error PyError.immutableViolation) ∧
    immSetItem d name v =
      (d, [immutableMsg name], Except.error PyError.immutableViolation) ∧
    immDelAttr d name =
      (d, [immutableMsg name], Except.error PyError.immutableViolation) := by
  have hg : getAttr d "_logger" Value.vnone = Value.vlogger := by
    simp [getAttr, h]
  refine ⟨?_, ?_, ?_⟩ <;>
    simp [immSetAttr, immSetItem, immDelAttr, hg, loggerCall]

/-- Witness for C4 on a concrete immutable object holding a logger and the
entry a = 1: setting a fails with the immutability violation, is logged, and
leaves the dict unchanged. -/
theorem C4_immutable_mutation_guards_witness :
    dictGet? [("_logger", Value.vlogger), ("a", Value.vint 1)] "_logger" =
      Option.some Value.vlogger ∧
    immSetAttr [("_logger", Value.vlogger), ("a", Value.vint 1)] "a"
        (Value.vint 2) =
      ([("_logger", Value.vlogger), ("a", Value.vint 1)], [immutableMsg "a"],
       Except.error PyError.immutableViolation) :=
  ⟨rfl,
   (C4_immutable_mutation_guards [("_logger", Value.vlogger),
      ("a", Value.vint 1)] "a" (Value.vint 2) rfl).1⟩

/-- C5: deleting an absent name fails with the key-not-found error and
leaves the mapping unchanged, and deleting a present name succeeds. -/
theorem C5_delattr_spec (d : Dict) (name : String) :
    (dictContains d name = false →
      delattrOp d name = (d, Except.error PyError.keyNotFound)) ∧
    (dictContains d name = true →
      (delattrOp d name).2 = Except.ok ()) := by
  constructor <;> intro h <;> simp [delattrOp, h]

/-- Witness for C5 on the object holding a = 1: deleting b fails with
key-not-found and leaves the dict as it was, while deleting a succeeds. -/
theorem C5_delattr_spec_witness :
    delattrOp [("a", Value.vint 1)] "b" =
      ([("a", Value.vint 1)], Except.error PyError.keyNotFound) ∧
    (delattrOp [("a", Value.vint 1)] "a").2 = Except.ok () :=
  ⟨(C5_delattr_spec [("a", Value.vint 1)] "b").1 rfl,
   (C5_delattr_spec [("a", Value.vint 1)] "a").2 rfl⟩

/-- C6: for every manager state, putting a key and immediately getting it
returns exactly the value just put without failing, including when the key
was already present and when the same key is re-inserted twice in a row. -/
theorem C6_put_get_roundtrip (m : Manager) (k : String) (v : Value) :
    (getFromCache (addToCache m k v).1 k).1 = Except.ok v ∧
    (getFromCache (addToCache (addToCache m k v).1 k v).1 k).1 =
      Except.ok v := by
  constructor <;> simp [getFromCache, addToCache, dictGet?_dictSet_self]

/-- C7: the update operation applied to any state with any arguments
produces exactly the same resulting manager state as the put operation;
both are total, so their success behavior coincides as well. -/
theorem C7_update_refines_put (m : Manager) (k : String) (v : Value) :
    (updateInCache m k v).1 = (addToCache m k v).1 := rfl

/-- C8 counterexample: on a concrete manager holding k = 1, the get and
existence-check operations succeed yet emit zero log messages, refuting the
claim that every one of the six operations logs exactly one message on every
successful invocation. -/
theorem C8_logging_counterexample :
    (getFromCache ⟨[("k", Value.vint 1)], 300, 0⟩ "k").1 =
      Except.ok (Value.vint 1) ∧
    (getFromCache ⟨[("k", Value.vint 1)], 300, 0⟩ "k").2 = [] ∧
    (isInCache ⟨[("k", Value.vint 1)], 300, 0⟩ "k").1 = true ∧
    (isInCache ⟨[("k", Value.vint 1)], 300, 0⟩ "k").2 = [] :=
  ⟨rfl, rfl, rfl, rfl⟩

/-- C8 amended: put, update and (on success) remove each emit exactly one
log message naming the key and the action, after the state change; flush
emits exactly one message after resetting when forced or stale and none on
the fresh no-op path; get and the existence check emit no log messages. -/
theorem C8_logging_amended (m : Manager) (k : String) (v : Value)
    (now : Int) :
    (addToCache m k v).2 = ["Added " ++ k ++ " to cache."] ∧
    (updateInCache m k v).2 = ["Updated " ++ k ++ " in cache."] ∧
    (dictContains m.cache k = true →
      (removeFromCache m k).2 = ["Removed " ++ k ++ " from cache."]) ∧
    (getFromCache m k).2 = [] ∧
    (isInCache m k).2 = [] ∧
    (flushCache m true now).2 = ["Flushed cache."] ∧
    (checkTimeLimit m now = true →
      (flushCache m false now).2 = ["Flushed cache."]) ∧
    (checkTimeLimit m now = false → (flushCache m false now).2 = []) := by
  refine ⟨rfl, rfl, ?_, rfl, rfl, ?_, ?_, ?_⟩
  · intro h; simp [removeFromCache, h]
  · simp [flushCache]
  · intro h; simp [flushCache, h]
  · intro h; simp [flushCache, h]

/-- Witness for C8 amended on concrete managers: removing a present key logs
its removal, a stale non-forced flush logs the reset, and a fresh non-forced
flush logs nothing. -/
theorem C8_logging_amended_witness :
    (removeFromCache ⟨[("k", Value.vint 1)], 300, 0⟩ "k").2 =
      ["Removed " ++ "k" ++ " from cache."] ∧
    (flushCache ⟨[("k", Value.vint 1)], 300, 0⟩ false 301).2 =
      ["Flushed cache."] ∧
    (flushCache ⟨[("k", Value.vint 1)], 300, 0⟩ false 300).2 = [] :=
  ⟨(C8_logging_amended ⟨[("k", Value.vint 1)], 300, 0⟩ "k"
      (Value.vint 1) 301).2.2.1 rfl,
   (C8_logging_amended ⟨[("k", Value.vint 1)], 300, 0⟩ "k"
      (Value.vint 1) 301).2.2.2.2.2.2.1 rfl,
   (C8_logging_amended ⟨[("k", Value.vint 1)], 300, 0⟩ "k"
      (Value.vint 1) 300).2.2.2.2.2.2.2 rfl⟩

/-- C9 counterexample: on the object holding a = 1 with class name
BaseObject, the rendering is the angle-bracketed string and is therefore not
the bare ClassName(key=value) form the claim states. -/
theorem C9_render_counterexample :
    strOf "BaseObject" [("a", Value.vint 1)] = "<BaseObject(a=1)>" ∧
    strOf "BaseObject" [("a", Value.vint 1)] ≠ "BaseObject(a=1)" :=
  ⟨rfl, by decide⟩

/-- C9 amended: for every attributed object, the rendering is exactly the
deterministic angle-bracketed form over the class name and the entries in
insertion order. -/
theorem C9_render_amended (className : String) (d : Dict) :
    strOf className d =
      "<" ++ className ++ "(" ++ renderedEntries d ++ ")>" := by
  simp [strOf, strJoin_map_entryStr]

/-- C10: constructing an ImmutableBaseObject always fails.  The inherited
base initializer routes its first assignment (the logger reference) through
the raising immutable attribute setter, which itself fails while looking up
the not-yet-stored logger, so an error is signaled with the instance dict
still empty (no attribute stored) and nothing logged. -/
theorem C10_immutable_construction_fails :
    immInit = ([], [], Except.error PyError.attributeOnNone) := rfl

end BaseObjectRepo
